import Mathlib

/-! Bouncing circle and movable segment (`source.cpp`).

A shallow embedding of the motion logic, the key handler, the circle fragment
shader and the control flow of `main` of `Beadando_labda/source.cpp`.

Numbers: the program computes with C `float`s.  They are embedded as exact
rationals (`ℚ`): no rounding, no infinities, no NaN.  Every constant of the
program (5, 25, 1.5, 300, 575, 598.5, 600) is a binary32 value, and sums of
multiples of 0.5 below 1024 are exact in binary32.  The C math library
(`cos`, `sin`, the value of `M_PI`) is not part of the source file and is a
parameter of the embedding (`CMath`).
-/

namespace BouncingCircle

/-! ## Constants -/

/-- Source line 11: `const int WINDOW_SIZE = 600;`. -/
def WINDOW_SIZE : Int := 600

/-- Source line 12: `const float CIRCLE_RADIUS = 25.0f;`. -/
def CIRCLE_RADIUS : ℚ := 25

/-- Source line 13: `const float SEGMENT_LENGTH = WINDOW_SIZE / 3.0f;`. -/
def SEGMENT_LENGTH : ℚ := (WINDOW_SIZE : ℚ) / 3

/-- Source line 14: `const float SEGMENT_THICKNESS = 3.0f;`. -/
def SEGMENT_THICKNESS : ℚ := 3

/-- Source line 15: `const float VECTOR_LENGTH = 10.0f;`. -/
def VECTOR_LENGTH : ℚ := 10

/-- The C math library as the program uses it: `cos`, `sin` and the value the
macro `M_PI` expands to (from `<cmath>`, or `asin(1.0) * 2.0` by lines 7-9). -/
structure CMath where
  cos : ℚ → ℚ
  sin : ℚ → ℚ
  M_PI : ℚ

/-- Source line 16: `const float ANGLE = 25.0f * M_PI / 180.0f;`. -/
def ANGLE (m : CMath) : ℚ := 25 * m.M_PI / 180

/-- A concrete rational stand-in for the math library (Taylor polynomials and
`355/113`), used to evaluate the embedding on concrete inputs. -/
def approxCMath : CMath where
  cos := fun x => 1 - x ^ 2 / 2 + x ^ 4 / 24
  sin := fun x => x - x ^ 3 / 6
  M_PI := 355 / 113

/-! GLFW constants, with their values in `GLFW/glfw3.h`. -/

/-- The key action `GLFW_RELEASE`. -/
def GLFW_RELEASE : Int := 0
/-- The key action `GLFW_PRESS`. -/
def GLFW_PRESS : Int := 1
/-- The key action `GLFW_REPEAT`. -/
def GLFW_REPEAT : Int := 2
/-- The key code `GLFW_KEY_S`. -/
def GLFW_KEY_S : Int := 83
/-- The key code `GLFW_KEY_DOWN`. -/
def GLFW_KEY_DOWN : Int := 264
/-- The key code `GLFW_KEY_UP`. -/
def GLFW_KEY_UP : Int := 265

/-! ## Program state -/

/-- The global variables of source lines 74-79. -/
structure State where
  segmentY : ℚ
  circleX : ℚ
  circleY : ℚ
  velocityX : ℚ
  velocityY : ℚ
  vectorMode : Bool
  deriving DecidableEq, Repr

/-- The initialisers of source lines 74-79. -/
def initialState : State where
  segmentY := (WINDOW_SIZE : ℚ) / 2
  circleX := (WINDOW_SIZE : ℚ) / 2
  circleY := (WINDOW_SIZE : ℚ) / 2
  velocityX := 5
  velocityY := 0
  vectorMode := false

/-! ## The key handler -/

/-- Source lines 83-84, the body of `if (key == GLFW_KEY_UP)`:
`segmentY += 5.0f;` then the clamp against the top of the window. -/
def keyUpBody (s : State) : State :=
  let y := s.segmentY + 5
  { s with segmentY :=
      if y + SEGMENT_THICKNESS / 2 > (WINDOW_SIZE : ℚ)
      then (WINDOW_SIZE : ℚ) - SEGMENT_THICKNESS / 2 else y }

/-- Source lines 87-88, the body of `if (key == GLFW_KEY_DOWN)`:
`segmentY -= 5.0f;` then the clamp against the bottom of the window. -/
def keyDownBody (s : State) : State :=
  let y := s.segmentY - 5
  { s with segmentY :=
      if y - SEGMENT_THICKNESS / 2 < 0 then SEGMENT_THICKNESS / 2 else y }

/-- Source lines 91-93, the body of `if (key == GLFW_KEY_S && !vectorMode)`. -/
def keySBody (m : CMath) (s : State) : State :=
  { s with
    velocityX := VECTOR_LENGTH * m.cos (ANGLE m)
    velocityY := VECTOR_LENGTH * m.sin (ANGLE m)
    vectorMode := true }

/-- Source lines 80-96, `keyCallback(window, key, scancode, action, mods)`.
The parameters `window`, `scancode` and `mods` are not read by the body. -/
def keyCallback (m : CMath) (s : State) (key action : Int) : State :=
  if action = GLFW_PRESS ∨ action = GLFW_REPEAT then
    let s1 : State := if key = GLFW_KEY_UP then keyUpBody s else s
    let s2 : State := if key = GLFW_KEY_DOWN then keyDownBody s1 else s1
    if key = GLFW_KEY_S ∧ s2.vectorMode = false then keySBody m s2 else s2
  else s

/-! ## The frame step -/

/-- Source lines 187-188: `circleX += velocityX; circleY += velocityY;`. -/
def updatePosition (s : State) : State :=
  { s with circleX := s.circleX + s.velocityX, circleY := s.circleY + s.velocityY }

/-- Source lines 191-194: `if (circleX - CIRCLE_RADIUS < 0)`. -/
def bounceXLow (s : State) : State :=
  if s.circleX - CIRCLE_RADIUS < 0 then
    { s with velocityX := -s.velocityX, circleX := CIRCLE_RADIUS }
  else s

/-- Source lines 195-198: `if (circleX + CIRCLE_RADIUS > WINDOW_SIZE)`. -/
def bounceXHigh (s : State) : State :=
  if s.circleX + CIRCLE_RADIUS > (WINDOW_SIZE : ℚ) then
    { s with velocityX := -s.velocityX, circleX := (WINDOW_SIZE : ℚ) - CIRCLE_RADIUS }
  else s

/-- Source lines 199-202: `if (circleY - CIRCLE_RADIUS < 0)`. -/
def bounceYLow (s : State) : State :=
  if s.circleY - CIRCLE_RADIUS < 0 then
    { s with velocityY := -s.velocityY, circleY := CIRCLE_RADIUS }
  else s

/-- Source lines 203-206: `if (circleY + CIRCLE_RADIUS > WINDOW_SIZE)`. -/
def bounceYHigh (s : State) : State :=
  if s.circleY + CIRCLE_RADIUS > (WINDOW_SIZE : ℚ) then
    { s with velocityY := -s.velocityY, circleY := (WINDOW_SIZE : ℚ) - CIRCLE_RADIUS }
  else s

/-- Source lines 191-206: the four bounce tests, in program order. -/
def bounce (s : State) : State :=
  bounceYHigh (bounceYLow (bounceXHigh (bounceXLow s)))

/-- The state change of one iteration of the main loop (source lines 186-206):
position update, then bounce correction. -/
def frameStep (s : State) : State := bounce (updatePosition s)

/-! ## Runs: frames interleaved with key events -/

/-- What can change the state: a frame of the main loop, or a key event
delivered to `keyCallback` with its key code and action. -/
inductive Event where
  | frame : Event
  | key (key action : Int) : Event
  deriving DecidableEq, Repr

/-- The effect of one event. -/
def step (m : CMath) (s : State) : Event → State
  | Event.frame => frameStep s
  | Event.key k a => keyCallback m s k a

/-- The effect of a finite sequence of events, oldest first. -/
def run (m : CMath) (s : State) (evs : List Event) : State :=
  evs.foldl (step m) s

/-- The circle is inside the window on both axes. -/
def circleInside (s : State) : Prop :=
  CIRCLE_RADIUS ≤ s.circleX ∧ s.circleX ≤ (WINDOW_SIZE : ℚ) - CIRCLE_RADIUS ∧
  CIRCLE_RADIUS ≤ s.circleY ∧ s.circleY ≤ (WINDOW_SIZE : ℚ) - CIRCLE_RADIUS

/-- The segment is inside the window. -/
def segmentInside (s : State) : Prop :=
  SEGMENT_THICKNESS / 2 ≤ s.segmentY ∧
  s.segmentY ≤ (WINDOW_SIZE : ℚ) - SEGMENT_THICKNESS / 2

/-! ## The circle fragment shader -/

/-- A GLSL `vec2`. -/
structure Vec2 where
  x : ℚ
  y : ℚ
  deriving DecidableEq, Repr

/-- A GLSL `vec3`. -/
structure Vec3 where
  x : ℚ
  y : ℚ
  z : ℚ
  deriving DecidableEq, Repr

/-- A GLSL `vec4`. -/
structure Vec4 where
  x : ℚ
  y : ℚ
  z : ℚ
  w : ℚ
  deriving DecidableEq, Repr

/-- The GLSL constructor `vec4(v, w)` from a `vec3` and a scalar. -/
def vec4 (v : Vec3) (w : ℚ) : Vec4 := ⟨v.x, v.y, v.z, w⟩

/-- The GLSL builtin `mix(x, y, a)`, which is `x * (1 - a) + y * a` on each
component. -/
def mix (x y : Vec3) (a : ℚ) : Vec3 :=
  ⟨x.x * (1 - a) + y.x * a, x.y * (1 - a) + y.y * a, x.z * (1 - a) + y.z * a⟩

/-- The uniforms of the circle fragment shader (source lines 30-33), the two
colours with their default initialisers, which `main` never overrides. -/
structure CircleUniforms where
  circleCenter : Vec2
  radius : ℚ
  centerColor : Vec3 := ⟨1, 0, 0⟩
  borderColor : Vec3 := ⟨0, 1, 0⟩
  deriving DecidableEq, Repr

/-- Source lines 34-42, `main` of `circleFragmentShaderSource`: the value
written to `FragColor` for the pixel at `fragCoord` (`gl_FragCoord.xy`).  The
GLSL builtin `distance` is a parameter. -/
def circleFragmentShader (distance : Vec2 → Vec2 → ℚ) (u : CircleUniforms)
    (fragCoord : Vec2) : Vec4 :=
  let dist := distance fragCoord u.circleCenter
  if dist ≤ u.radius then
    let t := dist / u.radius
    vec4 (mix u.centerColor u.borderColor t) 1
  else
    ⟨1, 1, 0, 1⟩

/-- The uniforms `main` uploads each frame (source lines 209-210). -/
def circleUniforms (s : State) : CircleUniforms :=
  { circleCenter := ⟨s.circleX, s.circleY⟩, radius := CIRCLE_RADIUS }

/-- The Euclidean distance of two points, computed with the rational square
root: exact whenever the squared distance is the square of a rational. -/
def euclideanDistance (p q : Vec2) : ℚ :=
  Rat.sqrt ((p.x - q.x) ^ 2 + (p.y - q.y) ^ 2)

/-! ## The control flow of `main` -/

/-- What the platform answers during setup.  A shader or program status is
`none` when `GL_COMPILE_STATUS` / `GL_LINK_STATUS` reports success, and
`some infoLog` with the driver's info log when it reports failure. -/
structure SetupOutcome where
  glfwInitOk : Bool
  windowCreated : Bool
  glewInitOk : Bool
  vertexShader : Option String
  circleFragmentShader : Option String
  segmentFragmentShader : Option String
  circleProgram : Option String
  segmentProgram : Option String
  deriving DecidableEq, Repr

/-- Source lines 53-61, `checkShaderCompile`: the lines it writes to
`std::cerr`.  It returns `void` and has no other effect. -/
def checkShaderCompile (status : Option String) : List String :=
  match status with
  | none => []
  | some infoLog => ["Shader compilation failed: " ++ infoLog]

/-- Source lines 63-71, `checkProgramLink`: the lines it writes to
`std::cerr`.  It returns `void` and has no other effect. -/
def checkProgramLink (status : Option String) : List String :=
  match status with
  | none => []
  | some infoLog => ["Program linking failed: " ++ infoLog]

/-- The key events (key code, action) that one call of `glfwPollEvents`
(source line 236) delivers to `keyCallback`, in order. -/
def pollEvents (m : CMath) (s : State) (evs : List (Int × Int)) : State :=
  evs.foldl (fun st e => keyCallback m st e.1 e.2) s

/-- Source lines 183-237, the main loop.  The list holds, for each iteration
that runs before `glfwWindowShouldClose` turns true, the key events polled at
its end; the result is the final state and the number of iterations run. -/
def mainLoop (m : CMath) : State → Nat → List (List (Int × Int)) → State × Nat
  | s, n, [] => (s, n)
  | s, n, evs :: rest => mainLoop m (pollEvents m (frameStep s) evs) (n + 1) rest

/-- The iterations of the main loop as one sequence of events: each iteration
is a frame followed by the key events polled at its end. -/
def loopEvents : List (List (Int × Int)) → List Event
  | [] => []
  | evs :: rest =>
    Event.frame :: (evs.map (fun e => Event.key e.1 e.2) ++ loopEvents rest)

/-- What one execution of `main` does, as far as the claims need it. -/
structure MainResult where
  exitCode : Int
  loopReached : Bool
  framesRun : Nat
  log : List String
  finalState : State
  deriving DecidableEq, Repr

/-- Source lines 97-250, the control flow of `main`: the three early returns,
the five status checks, the main loop and `return 0`. -/
def main (m : CMath) (env : SetupOutcome) (polls : List (List (Int × Int))) :
    MainResult :=
  if env.glfwInitOk = false then
    ⟨-1, false, 0, ["Failed to initialize GLFW"], initialState⟩
  else if env.windowCreated = false then
    ⟨-1, false, 0, ["Failed to create window"], initialState⟩
  else if env.glewInitOk = false then
    ⟨-1, false, 0, ["Failed to initialize GLEW"], initialState⟩
  else
    let log :=
      checkShaderCompile env.vertexShader ++
      checkShaderCompile env.circleFragmentShader ++
      checkShaderCompile env.segmentFragmentShader ++
      checkProgramLink env.circleProgram ++
      checkProgramLink env.segmentProgram
    let r := mainLoop m initialState 0 polls
    ⟨0, true, r.2, log, r.1⟩

/-- Some setup step fails: GLFW init, window creation, GLEW init, one of the
three shader compiles or one of the two program links. -/
def SetupOutcome.anyFailure (env : SetupOutcome) : Bool :=
  !env.glfwInitOk || !env.windowCreated || !env.glewInitOk ||
  env.vertexShader.isSome || env.circleFragmentShader.isSome ||
  env.segmentFragmentShader.isSome || env.circleProgram.isSome ||
  env.segmentProgram.isSome

/-- One of the three steps that `main` tests itself fails: GLFW init, window
creation or GLEW init. -/
def SetupOutcome.platformFailure (env : SetupOutcome) : Bool :=
  !env.glfwInitOk || !env.windowCreated || !env.glewInitOk

/-! ## Concrete inputs -/

/-- A state with the circle left of the left wall's contact point and a
velocity that carries it back inside within one frame. -/
def leftOfWallState : State :=
  { segmentY := 300, circleX := 20, circleY := 300,
    velocityX := 10, velocityY := 0, vectorMode := false }

/-- A state whose position update leaves the circle across the left wall. -/
def crossingLeftState : State :=
  { segmentY := 300, circleX := 27, circleY := 300,
    velocityX := -5, velocityY := 0, vectorMode := false }

/-- The step count named by Scenario A,
`ceil((WINDOW_SIZE/2 - CIRCLE_RADIUS)/5)`. -/
def scenarioASteps : Nat :=
  (⌈((WINDOW_SIZE : ℚ) / 2 - CIRCLE_RADIUS) / 5⌉).toNat

/-- A setup in which only the vertex shader fails to compile. -/
def shaderFailureOutcome : SetupOutcome :=
  { glfwInitOk := true, windowCreated := true, glewInitOk := true,
    vertexShader := some "syntax error", circleFragmentShader := none,
    segmentFragmentShader := none, circleProgram := none, segmentProgram := none }

/-- A setup in which `glfwCreateWindow` returns `NULL`. -/
def windowFailureOutcome : SetupOutcome :=
  { glfwInitOk := true, windowCreated := false, glewInitOk := true,
    vertexShader := none, circleFragmentShader := none,
    segmentFragmentShader := none, circleProgram := none, segmentProgram := none }

/-! ## Helper lemmas -/

theorem run_nil (m : CMath) (s : State) : run m s [] = s := rfl

theorem run_cons (m : CMath) (s : State) (e : Event) (evs : List Event) :
    run m s (e :: evs) = run m (step m s e) evs := rfl

theorem run_append (m : CMath) (s : State) (xs ys : List Event) :
    run m s (xs ++ ys) = run m (run m s xs) ys := by
  simp [run, List.foldl_append]

theorem pollEvents_eq_run (m : CMath) (evs : List (Int × Int)) :
    ∀ s : State, pollEvents m s evs = run m s (evs.map (fun e => Event.key e.1 e.2)) := by
  induction evs with
  | nil => intro s; rfl
  | cons e rest ih =>
    intro s
    have h := ih (keyCallback m s e.1 e.2)
    simp only [pollEvents, List.foldl_cons] at h ⊢
    rw [h, List.map_cons, run_cons]
    rfl

/-- The state the main loop ends in is the state after its sequence of
events. -/
theorem mainLoop_eq_run (m : CMath) (polls : List (List (Int × Int))) :
    ∀ (s : State) (n : Nat), (mainLoop m s n polls).1 = run m s (loopEvents polls) := by
  induction polls with
  | nil => intro s n; rfl
  | cons evs rest ih =>
    intro s n
    simp only [mainLoop, loopEvents]
    rw [ih, run_cons, run_append, pollEvents_eq_run]
    rfl

theorem bounceXLow_of_le (s : State) (h : CIRCLE_RADIUS ≤ s.circleX) :
    bounceXLow s = s := by
  unfold bounceXLow
  rw [if_neg (by linarith)]

theorem bounceXHigh_of_le (s : State) (h : s.circleX ≤ (WINDOW_SIZE : ℚ) - CIRCLE_RADIUS) :
    bounceXHigh s = s := by
  unfold bounceXHigh
  rw [if_neg (by linarith)]

theorem bounceYLow_of_le (s : State) (h : CIRCLE_RADIUS ≤ s.circleY) :
    bounceYLow s = s := by
  unfold bounceYLow
  rw [if_neg (by linarith)]

theorem bounceYHigh_of_le (s : State) (h : s.circleY ≤ (WINDOW_SIZE : ℚ) - CIRCLE_RADIUS) :
    bounceYHigh s = s := by
  unfold bounceYHigh
  rw [if_neg (by linarith)]

/-- A state already inside the window is left alone by the bounce tests. -/
theorem bounce_of_inside (s : State) (h : circleInside s) : bounce s = s := by
  obtain ⟨h1, h2, h3, h4⟩ := h
  unfold bounce
  rw [bounceXLow_of_le s h1, bounceXHigh_of_le s h2, bounceYLow_of_le s h3,
    bounceYHigh_of_le s h4]

theorem circleInside_bounce (s : State) : circleInside (bounce s) := by
  unfold circleInside bounce bounceYHigh bounceYLow bounceXHigh bounceXLow
  simp only [CIRCLE_RADIUS, WINDOW_SIZE]
  push_cast
  refine ⟨?_, ?_, ?_, ?_⟩ <;> split_ifs <;> simp_all <;> linarith

theorem keyCallback_circle (m : CMath) (s : State) (k a : Int) :
    (keyCallback m s k a).circleX = s.circleX ∧
    (keyCallback m s k a).circleY = s.circleY := by
  simp only [keyCallback]
  split_ifs <;> simp [keyUpBody, keyDownBody, keySBody]

theorem circleInside_initial : circleInside initialState := by
  unfold circleInside initialState
  simp only [CIRCLE_RADIUS, WINDOW_SIZE]
  norm_num

theorem circleInside_step (m : CMath) (s : State) (e : Event)
    (h : circleInside s) : circleInside (step m s e) := by
  cases e with
  | frame => exact circleInside_bounce _
  | key k a =>
    obtain ⟨hx, hy⟩ := keyCallback_circle m s k a
    unfold circleInside at *
    simp only [step, hx, hy]
    exact h

theorem circleInside_run (m : CMath) (evs : List Event) :
    ∀ s : State, circleInside s → circleInside (run m s evs) := by
  induction evs with
  | nil => intro s h; exact h
  | cons e evs ih =>
    intro s h
    rw [run_cons]
    exact ih _ (circleInside_step m s e h)

/-! ## Claims -/

/-- C1: the circle stays inside the window.  After one frame step from any
state with any velocity, after every frame of every run from the initial
state (circle at (300,300), velocity (5,0)) under any interleaving of key
events, and so at the end of every iteration of the main loop,
`25 ≤ circleX ≤ 575` and `25 ≤ circleY ≤ 575`. -/
theorem circle_stays_inside (m : CMath) :
    (∀ s : State, circleInside (frameStep s)) ∧
    (∀ evs : List Event, circleInside (run m initialState (evs ++ [Event.frame]))) ∧
    (∀ polls : List (List (Int × Int)), circleInside (mainLoop m initialState 0 polls).1) ∧
    (∀ s : State, circleInside s ↔
      (25 ≤ s.circleX ∧ s.circleX ≤ 575 ∧ 25 ≤ s.circleY ∧ s.circleY ≤ 575)) ∧
    initialState.circleX = 300 ∧ initialState.circleY = 300 ∧
    initialState.velocityX = 5 ∧ initialState.velocityY = 0 := by
  refine ⟨fun s => circleInside_bounce _, fun evs => ?_, fun polls => ?_, fun s => ?_,
    ?_, ?_, rfl, rfl⟩
  · exact circleInside_run m _ _ circleInside_initial
  · rw [mainLoop_eq_run]
    exact circleInside_run m _ _ circleInside_initial
  · unfold circleInside
    simp only [CIRCLE_RADIUS, WINDOW_SIZE]
    norm_num
  · simp only [initialState, WINDOW_SIZE]; norm_num
  · simp only [initialState, WINDOW_SIZE]; norm_num

/-! ### Segment -/

theorem frameStep_segmentY (s : State) : (frameStep s).segmentY = s.segmentY := by
  simp only [frameStep, bounce, bounceYHigh, bounceYLow, bounceXHigh, bounceXLow, updatePosition]
  split_ifs <;> rfl

theorem frameStep_vectorMode (s : State) : (frameStep s).vectorMode = s.vectorMode := by
  simp only [frameStep, bounce, bounceYHigh, bounceYLow, bounceXHigh, bounceXLow, updatePosition]
  split_ifs <;> rfl

theorem segmentInside_keyCallback (m : CMath) (s : State) (k a : Int)
    (h : segmentInside s) : segmentInside (keyCallback m s k a) := by
  unfold segmentInside at *
  simp only [SEGMENT_THICKNESS, WINDOW_SIZE] at *
  push_cast at *
  obtain ⟨h1, h2⟩ := h
  simp only [keyCallback, keyUpBody, keyDownBody, keySBody, SEGMENT_THICKNESS, WINDOW_SIZE]
  push_cast
  constructor <;> split_ifs <;> simp_all <;> linarith

theorem segmentInside_step (m : CMath) (s : State) (e : Event)
    (h : segmentInside s) : segmentInside (step m s e) := by
  cases e with
  | frame =>
    unfold segmentInside at *
    simp only [step, frameStep_segmentY]
    exact h
  | key k a => exact segmentInside_keyCallback m s k a h

theorem segmentInside_run (m : CMath) (evs : List Event) :
    ∀ s : State, segmentInside s → segmentInside (run m s evs) := by
  induction evs with
  | nil => intro s h; exact h
  | cons e evs ih =>
    intro s h
    rw [run_cons]
    exact ih _ (segmentInside_step m s e h)

/-- C2: the segment stays inside the window.  From any state with
`segmentY = WINDOW_SIZE / 2`, after every finite sequence of key events (any
key code, any action) and frames, and so after any number of iterations of the
main loop, `1.5 ≤ segmentY ≤ 598.5`. -/
theorem segment_stays_inside (m : CMath) (s : State) (evs : List Event)
    (h : s.segmentY = (WINDOW_SIZE : ℚ) / 2) :
    SEGMENT_THICKNESS / 2 ≤ (run m s evs).segmentY ∧
    (run m s evs).segmentY ≤ (WINDOW_SIZE : ℚ) - SEGMENT_THICKNESS / 2 ∧
    (∀ (polls : List (List (Int × Int))) (n : Nat),
      segmentInside (mainLoop m s n polls).1) ∧
    SEGMENT_THICKNESS / 2 = 3 / 2 ∧
    (WINDOW_SIZE : ℚ) - SEGMENT_THICKNESS / 2 = 1197 / 2 := by
  have h0 : segmentInside s := by
    unfold segmentInside
    rw [h]
    simp only [SEGMENT_THICKNESS, WINDOW_SIZE]
    norm_num
  have hr := segmentInside_run m evs s h0
  refine ⟨hr.1, hr.2, fun polls n => ?_, ?_, ?_⟩
  · rw [mainLoop_eq_run]
    exact segmentInside_run m _ s h0
  · norm_num [SEGMENT_THICKNESS]
  · norm_num [SEGMENT_THICKNESS, WINDOW_SIZE]

/-- Witness of C2: from the initial state, a run mixing frames and key events
of every kind. -/
theorem segment_stays_inside_witness :
    initialState.segmentY = (WINDOW_SIZE : ℚ) / 2 ∧
    SEGMENT_THICKNESS / 2 ≤
      (run approxCMath initialState
        [Event.key GLFW_KEY_DOWN GLFW_PRESS, Event.frame,
         Event.key GLFW_KEY_UP GLFW_REPEAT, Event.key 7 9]).segmentY ∧
    (run approxCMath initialState
        [Event.key GLFW_KEY_DOWN GLFW_PRESS, Event.frame,
         Event.key GLFW_KEY_UP GLFW_REPEAT, Event.key 7 9]).segmentY ≤
      (WINDOW_SIZE : ℚ) - SEGMENT_THICKNESS / 2 :=
  ⟨rfl, (segment_stays_inside approxCMath initialState _ rfl).1,
    (segment_stays_inside approxCMath initialState _ rfl).2.1⟩

/-! ### Reflection -/

/-- C3, as stated, fails: with `circleX = 20` (so `circleX - CIRCLE_RADIUS < 0`
before the frame step) and `velocityX = 10`, the position update moves the
circle to 30, no bounce test fires, `circleX` ends at 30 rather than 25 and
`velocityX` keeps its sign. -/
theorem reflection_law_pre_state_fails :
    leftOfWallState.circleX - CIRCLE_RADIUS < 0 ∧
    (frameStep leftOfWallState).circleX = 30 ∧
    (frameStep leftOfWallState).circleX ≠ CIRCLE_RADIUS ∧
    leftOfWallState.velocityX = 10 ∧
    (frameStep leftOfWallState).velocityX = 10 := by
  norm_num [frameStep, bounce, bounceYHigh, bounceYLow, bounceXHigh, bounceXLow,
    updatePosition, leftOfWallState, CIRCLE_RADIUS, WINDOW_SIZE]

/-- C3, amended: if after the position update of a frame step
`circleX - CIRCLE_RADIUS < 0`, then after the bounce correction
`circleX = CIRCLE_RADIUS`, `velocityX` is the negation of its value before the
step, and so its sign is the opposite one. -/
theorem reflection_law (s : State)
    (h : (updatePosition s).circleX - CIRCLE_RADIUS < 0) :
    (frameStep s).circleX = CIRCLE_RADIUS ∧
    (frameStep s).velocityX = -s.velocityX ∧
    SignType.sign (frameStep s).velocityX = -SignType.sign s.velocityX := by
  have hx : (frameStep s).circleX = CIRCLE_RADIUS ∧
      (frameStep s).velocityX = -s.velocityX := by
    simp only [updatePosition, CIRCLE_RADIUS] at h
    simp only [frameStep, bounce, bounceYHigh, bounceYLow, bounceXHigh, bounceXLow,
      updatePosition, CIRCLE_RADIUS, WINDOW_SIZE]
    push_cast
    constructor <;> split_ifs <;> simp_all <;> linarith
  refine ⟨hx.1, hx.2, ?_⟩
  rw [hx.2, Left.sign_neg]

/-- Witness of the amended C3: from `circleX = 27` with `velocityX = -5` the
update gives 22, and the frame ends with `circleX = 25`, `velocityX = 5`. -/
theorem reflection_law_witness :
    (updatePosition crossingLeftState).circleX - CIRCLE_RADIUS < 0 ∧
    (frameStep crossingLeftState).circleX = CIRCLE_RADIUS ∧
    (frameStep crossingLeftState).velocityX = -crossingLeftState.velocityX :=
  have h : (updatePosition crossingLeftState).circleX - CIRCLE_RADIUS < 0 := by
    simp only [updatePosition, crossingLeftState, CIRCLE_RADIUS]
    norm_num
  ⟨h, (reflection_law crossingLeftState h).1, (reflection_law crossingLeftState h).2.1⟩

/-! ### Scenario A -/

theorem scenarioASteps_eq : scenarioASteps = 55 := by
  have h : ((WINDOW_SIZE : ℚ) / 2 - CIRCLE_RADIUS) / 5 = ((55 : ℤ) : ℚ) := by
    norm_num [WINDOW_SIZE, CIRCLE_RADIUS]
  unfold scenarioASteps
  rw [h, Int.ceil_intCast]
  rfl

/-- With no key events the circle moves right by 5 per frame for the first 55
frames, without any bounce. -/
theorem iterate_frameStep_initial (n : Nat) (hn : n ≤ 55) :
    frameStep^[n] initialState = { initialState with circleX := 300 + 5 * (n : ℚ) } := by
  induction n with
  | zero =>
    simp only [Function.iterate_zero, id_eq, initialState, WINDOW_SIZE]
    norm_num
  | succ k ih =>
    have hk : (k : ℚ) + 1 ≤ 55 := by exact_mod_cast hn
    have hk0 : (0 : ℚ) ≤ (k : ℚ) := Nat.cast_nonneg k
    rw [Function.iterate_succ_apply', ih (by omega)]
    unfold frameStep
    rw [bounce_of_inside]
    · simp only [updatePosition, initialState, WINDOW_SIZE]
      push_cast
      congr 1 <;> ring
    · unfold circleInside
      simp only [updatePosition, initialState, CIRCLE_RADIUS, WINDOW_SIZE]
      push_cast
      refine ⟨?_, ?_, ?_, ?_⟩ <;> linarith

/-- C4, as stated, fails: after `ceil((600/2 - 25)/5) = 55` frames from the
initial state the circle is at `circleX = 575`, exactly touching the right
wall (`575 + 25 > 600` is false), it has not reflected and `velocityX` is
still 5, not -5. -/
theorem scenarioA_55_frames_no_reflection :
    scenarioASteps = 55 ∧
    (frameStep^[scenarioASteps] initialState).circleX = 575 ∧
    (frameStep^[scenarioASteps] initialState).velocityX = 5 ∧
    (frameStep^[scenarioASteps] initialState).velocityX ≠ -5 := by
  rw [scenarioASteps_eq, iterate_frameStep_initial 55 (le_refl 55)]
  norm_num [initialState]

/-- C4, amended: from the initial state with no key events, during the first
55 frames `velocityX` stays 5 and `circleX = 300 + 5 n` (575 after frame 55);
the reflection off the right wall happens in frame 56, after which
`velocityX = -5` and `circleX = 575`. -/
theorem scenarioA_reflects_at_frame_56 :
    (∀ n : Nat, n ≤ scenarioASteps →
      (frameStep^[n] initialState).velocityX = 5 ∧
      (frameStep^[n] initialState).circleX = 300 + 5 * (n : ℚ)) ∧
    (frameStep^[scenarioASteps + 1] initialState).velocityX = -5 ∧
    (frameStep^[scenarioASteps + 1] initialState).circleX =
      (WINDOW_SIZE : ℚ) - CIRCLE_RADIUS ∧
    (frameStep^[scenarioASteps + 1] initialState).circleY = 300 ∧
    (frameStep^[scenarioASteps + 1] initialState).velocityY = 0 ∧
    scenarioASteps + 1 = 56 := by
  rw [scenarioASteps_eq]
  refine ⟨fun n hn => ?_, ?_⟩
  · rw [iterate_frameStep_initial n hn]
    simp [initialState]
  · rw [Function.iterate_succ_apply', iterate_frameStep_initial 55 (le_refl 55)]
    norm_num [frameStep, bounce, bounceYHigh, bounceYLow, bounceXHigh, bounceXLow,
      updatePosition, initialState, CIRCLE_RADIUS, WINDOW_SIZE]

/-- Witness of the amended C4 at frame 10: `velocityX = 5`, `circleX = 350`. -/
theorem scenarioA_reflects_at_frame_56_witness :
    10 ≤ scenarioASteps ∧
    (frameStep^[10] initialState).velocityX = 5 ∧
    (frameStep^[10] initialState).circleX = 300 + 5 * ((10 : Nat) : ℚ) :=
  have h : 10 ≤ scenarioASteps := by rw [scenarioASteps_eq]; decide
  ⟨h, scenarioA_reflects_at_frame_56.1 10 h⟩

/-! ### Mode switch -/

/-- An (S, press) or (S, repeat) event in Bouncing mode runs the switch body;
in Ballistic mode it changes nothing. -/
theorem keyCallback_S (m : CMath) (s : State) (a : Int)
    (ha : a = GLFW_PRESS ∨ a = GLFW_REPEAT) :
    keyCallback m s GLFW_KEY_S a = if s.vectorMode = false then keySBody m s else s := by
  have h1 : ¬ GLFW_KEY_S = GLFW_KEY_UP := by decide
  have h2 : ¬ GLFW_KEY_S = GLFW_KEY_DOWN := by decide
  simp only [keyCallback, if_pos ha, if_neg h1, if_neg h2, true_and]

/-- A Down event with action press or repeat runs exactly the Down body. -/
theorem keyCallback_DOWN (m : CMath) (s : State) (a : Int)
    (ha : a = GLFW_PRESS ∨ a = GLFW_REPEAT) :
    keyCallback m s GLFW_KEY_DOWN a = keyDownBody s := by
  have h1 : ¬ GLFW_KEY_DOWN = GLFW_KEY_UP := by decide
  have h3 : ¬ (GLFW_KEY_DOWN = GLFW_KEY_S ∧ (keyDownBody s).vectorMode = false) :=
    fun h => absurd h.1 (by decide)
  simp only [keyCallback, if_pos ha, if_neg h1, if_neg h3, if_true]

/-- An Up event with action press or repeat runs exactly the Up body. -/
theorem keyCallback_UP (m : CMath) (s : State) (a : Int)
    (ha : a = GLFW_PRESS ∨ a = GLFW_REPEAT) :
    keyCallback m s GLFW_KEY_UP a = keyUpBody s := by
  have h2 : ¬ GLFW_KEY_UP = GLFW_KEY_DOWN := by decide
  have h3 : ¬ (GLFW_KEY_UP = GLFW_KEY_S ∧ (keyUpBody s).vectorMode = false) :=
    fun h => absurd h.1 (by decide)
  simp only [keyCallback, if_pos ha, if_neg h2, if_neg h3, if_true]

/-- An event whose action is neither press nor repeat changes nothing. -/
theorem keyCallback_other_action (m : CMath) (s : State) (k a : Int)
    (ha : ¬ (a = GLFW_PRESS ∨ a = GLFW_REPEAT)) : keyCallback m s k a = s := by
  simp only [keyCallback, if_neg ha]

theorem keyCallback_vectorMode (m : CMath) (s : State) (k a : Int)
    (h : s.vectorMode = true) : (keyCallback m s k a).vectorMode = true := by
  simp only [keyCallback]
  split_ifs <;> simp_all [keyUpBody, keyDownBody, keySBody]

theorem step_vectorMode (m : CMath) (s : State) (e : Event)
    (h : s.vectorMode = true) : (step m s e).vectorMode = true := by
  cases e with
  | frame => simp only [step, frameStep_vectorMode, h]
  | key k a => exact keyCallback_vectorMode m s k a h

theorem run_vectorMode (m : CMath) (evs : List Event) :
    ∀ s : State, s.vectorMode = true → (run m s evs).vectorMode = true := by
  induction evs with
  | nil => intro s h; exact h
  | cons e evs ih =>
    intro s h
    rw [run_cons]
    exact ih _ (step_vectorMode m s e h)

/-- C5: the mode switch is idempotent and one-way.  For every state,
delivering (S, press) twice leaves the same state (so the same velocity
vector) as delivering it once; and once `vectorMode` is true it is true after
every key event, every frame step and every finite sequence of them. -/
theorem mode_switch_idempotent_one_way (m : CMath) (s : State) :
    keyCallback m (keyCallback m s GLFW_KEY_S GLFW_PRESS) GLFW_KEY_S GLFW_PRESS =
      keyCallback m s GLFW_KEY_S GLFW_PRESS ∧
    (s.vectorMode = true →
      (∀ k a : Int, (keyCallback m s k a).vectorMode = true) ∧
      (frameStep s).vectorMode = true ∧
      (∀ evs : List Event, (run m s evs).vectorMode = true)) := by
  constructor
  · rw [keyCallback_S m s GLFW_PRESS (Or.inl rfl), keyCallback_S m _ GLFW_PRESS (Or.inl rfl)]
    cases hv : s.vectorMode <;> simp [hv, keySBody]
  · intro h
    exact ⟨fun k a => keyCallback_vectorMode m s k a h,
      by rw [frameStep_vectorMode, h], fun evs => run_vectorMode m evs s h⟩

/-- Witness of C5: the state reached from the initial state by one (S, press)
is in Ballistic mode, and stays there under frames and further key events. -/
theorem mode_switch_idempotent_one_way_witness :
    (keyCallback approxCMath initialState GLFW_KEY_S GLFW_PRESS).vectorMode = true ∧
    (run approxCMath (keyCallback approxCMath initialState GLFW_KEY_S GLFW_PRESS)
      [Event.frame, Event.key GLFW_KEY_S GLFW_PRESS, Event.key GLFW_KEY_S GLFW_RELEASE,
       Event.frame]).vectorMode = true :=
  have h : (keyCallback approxCMath initialState GLFW_KEY_S GLFW_PRESS).vectorMode = true := by
    rw [keyCallback_S approxCMath initialState GLFW_PRESS (Or.inl rfl)]
    rfl
  ⟨h, ((mode_switch_idempotent_one_way approxCMath _).2 h).2.2 _⟩

/-- C6, as stated, fails: in the initial state (`vectorMode = false`) the
event (S, repeat) performs the transition: `vectorMode` becomes true. -/
theorem mode_switch_on_repeat_fires :
    initialState.vectorMode = false ∧
    (keyCallback approxCMath initialState GLFW_KEY_S GLFW_REPEAT).vectorMode = true ∧
    (keyCallback approxCMath initialState GLFW_KEY_S GLFW_REPEAT).vectorMode ≠
      initialState.vectorMode := by
  rw [keyCallback_S approxCMath initialState GLFW_REPEAT (Or.inr rfl)]
  simp [initialState, keySBody]

/-- C6, amended: the mode-switch key acts on press and on repeat.  For every
state with `vectorMode = false`, the events (S, press) and (S, repeat) both set
the velocity to `(VECTOR_LENGTH * cos ANGLE, VECTOR_LENGTH * sin ANGLE)` and
`vectorMode` to true, leaving the rest of the state alone; an S event with any
other action (release) leaves the whole state unchanged. -/
theorem mode_switch_press_or_repeat (m : CMath) (s : State) (a : Int)
    (h : s.vectorMode = false) :
    ((a = GLFW_PRESS ∨ a = GLFW_REPEAT) →
      keyCallback m s GLFW_KEY_S a =
        { s with velocityX := VECTOR_LENGTH * m.cos (ANGLE m),
                 velocityY := VECTOR_LENGTH * m.sin (ANGLE m),
                 vectorMode := true }) ∧
    (¬ (a = GLFW_PRESS ∨ a = GLFW_REPEAT) → keyCallback m s GLFW_KEY_S a = s) := by
  constructor
  · intro ha
    rw [keyCallback_S m s a ha, if_pos h]
    rfl
  · intro ha
    exact keyCallback_other_action m s GLFW_KEY_S a ha

/-- Witness of the amended C6: (S, repeat) in the initial state. -/
theorem mode_switch_press_or_repeat_witness :
    initialState.vectorMode = false ∧
    (GLFW_REPEAT = GLFW_PRESS ∨ GLFW_REPEAT = GLFW_REPEAT) ∧
    keyCallback approxCMath initialState GLFW_KEY_S GLFW_REPEAT =
      { initialState with
        velocityX := VECTOR_LENGTH * approxCMath.cos (ANGLE approxCMath),
        velocityY := VECTOR_LENGTH * approxCMath.sin (ANGLE approxCMath),
        vectorMode := true } :=
  ⟨rfl, Or.inr rfl,
    (mode_switch_press_or_repeat approxCMath initialState GLFW_REPEAT rfl).1 (Or.inr rfl)⟩

/-! ### Scenario B -/

/-- An Up event with action press or repeat adds 5 to `segmentY` and caps the
result at `WINDOW_SIZE - SEGMENT_THICKNESS / 2`. -/
theorem keyCallback_up_segmentY (m : CMath) (s : State) (a : Int)
    (ha : a = GLFW_PRESS ∨ a = GLFW_REPEAT) :
    (keyCallback m s GLFW_KEY_UP a).segmentY =
      min (s.segmentY + 5) ((WINDOW_SIZE : ℚ) - SEGMENT_THICKNESS / 2) := by
  rw [keyCallback_UP m s a ha]
  simp only [keyUpBody, SEGMENT_THICKNESS, WINDOW_SIZE]
  push_cast
  split_ifs with h
  · rw [min_eq_right (by linarith)]
  · rw [min_eq_left (by linarith)]

/-- The position of the segment after a run of Up events, from a position
that respects the upper bound. -/
theorem run_up_segmentY (m : CMath) (acts : List Int) :
    ∀ s : State, s.segmentY ≤ (WINDOW_SIZE : ℚ) - SEGMENT_THICKNESS / 2 →
      (∀ a ∈ acts, a = GLFW_PRESS ∨ a = GLFW_REPEAT) →
      (run m s (acts.map (Event.key GLFW_KEY_UP))).segmentY =
        min (s.segmentY + 5 * (acts.length : ℚ))
          ((WINDOW_SIZE : ℚ) - SEGMENT_THICKNESS / 2) := by
  induction acts with
  | nil =>
    intro s hs _
    simp only [List.map_nil, run_nil, List.length_nil, Nat.cast_zero, mul_zero, add_zero]
    rw [min_eq_left hs]
  | cons a rest ih =>
    intro s _ h
    have ha : a = GLFW_PRESS ∨ a = GLFW_REPEAT := h a (List.mem_cons_self a rest)
    have hrest : ∀ b ∈ rest, b = GLFW_PRESS ∨ b = GLFW_REPEAT :=
      fun b hb => h b (List.mem_cons_of_mem a hb)
    have hup := keyCallback_up_segmentY m s a ha
    have hle : (keyCallback m s GLFW_KEY_UP a).segmentY ≤
        (WINDOW_SIZE : ℚ) - SEGMENT_THICKNESS / 2 := by
      rw [hup]
      exact min_le_right _ _
    have hn : (0 : ℚ) ≤ (rest.length : ℚ) := Nat.cast_nonneg _
    rw [List.map_cons, run_cons]
    simp only [step]
    rw [ih _ hle hrest, hup]
    simp only [List.length_cons]
    push_cast
    rcases le_total (s.segmentY + 5) ((WINDOW_SIZE : ℚ) - SEGMENT_THICKNESS / 2) with hc | hc
    · rw [min_eq_left hc]
      congr 1
      ring
    · rw [min_eq_right hc, min_eq_right (by linarith), min_eq_right (by linarith)]

/-- C7: Scenario B.  From any state with `segmentY = WINDOW_SIZE / 2 = 300`,
after 1000 consecutive Up events, each a press or a repeat,
`segmentY = WINDOW_SIZE - SEGMENT_THICKNESS / 2 = 598.5`, and after each of the
events (every prefix of the sequence) `segmentY ≤ 598.5`. -/
theorem scenarioB_up_1000 (m : CMath) (s : State) (acts : List Int)
    (hs : s.segmentY = (WINDOW_SIZE : ℚ) / 2)
    (hlen : acts.length = 1000)
    (hact : ∀ a ∈ acts, a = GLFW_PRESS ∨ a = GLFW_REPEAT) :
    (run m s (acts.map (Event.key GLFW_KEY_UP))).segmentY =
      (WINDOW_SIZE : ℚ) - SEGMENT_THICKNESS / 2 ∧
    (∀ k : Nat, k ≤ 1000 →
      (run m s ((acts.take k).map (Event.key GLFW_KEY_UP))).segmentY ≤
        (WINDOW_SIZE : ℚ) - SEGMENT_THICKNESS / 2) ∧
    (WINDOW_SIZE : ℚ) / 2 = 300 ∧
    (WINDOW_SIZE : ℚ) - SEGMENT_THICKNESS / 2 = 1197 / 2 := by
  have hc : (WINDOW_SIZE : ℚ) - SEGMENT_THICKNESS / 2 = 1197 / 2 := by
    norm_num [WINDOW_SIZE, SEGMENT_THICKNESS]
  have h300 : (WINDOW_SIZE : ℚ) / 2 = 300 := by norm_num [WINDOW_SIZE]
  have h0 : s.segmentY ≤ (WINDOW_SIZE : ℚ) - SEGMENT_THICKNESS / 2 := by
    rw [hs, hc, h300]
    norm_num
  refine ⟨?_, fun k _ => ?_, h300, hc⟩
  · rw [run_up_segmentY m acts s h0 hact, hs, hlen, hc, h300]
    norm_num
  · have hk : ∀ a ∈ acts.take k, a = GLFW_PRESS ∨ a = GLFW_REPEAT :=
      fun a ha => hact a (List.mem_of_mem_take ha)
    rw [run_up_segmentY m (acts.take k) s h0 hk]
    exact min_le_right _ _

/-- Witness of C7: 1000 Up presses from the initial state. -/
theorem scenarioB_up_1000_witness :
    initialState.segmentY = (WINDOW_SIZE : ℚ) / 2 ∧
    (List.replicate 1000 GLFW_PRESS).length = 1000 ∧
    (run approxCMath initialState
      ((List.replicate 1000 GLFW_PRESS).map (Event.key GLFW_KEY_UP))).segmentY =
      (WINDOW_SIZE : ℚ) - SEGMENT_THICKNESS / 2 :=
  ⟨rfl, List.length_replicate 1000 GLFW_PRESS,
    (scenarioB_up_1000 approxCMath initialState (List.replicate 1000 GLFW_PRESS) rfl
      (List.length_replicate 1000 GLFW_PRESS)
      (fun _ ha => Or.inl (List.eq_of_mem_replicate ha))).1⟩

/-! ### Scenario C -/

/-- C8: Scenario C.  From the initial state, (Down, press) then (S, press)
leaves `segmentY = 295`, one step of 5 below its start of 300, sets the
velocity to `(VECTOR_LENGTH * cos ANGLE, VECTOR_LENGTH * sin ANGLE)` with
`VECTOR_LENGTH = 10` and `ANGLE = 25 * M_PI / 180`, sets `vectorMode` to true and
leaves the circle at (300, 300). -/
theorem scenarioC_down_then_switch (m : CMath) :
    run m initialState
        [Event.key GLFW_KEY_DOWN GLFW_PRESS, Event.key GLFW_KEY_S GLFW_PRESS] =
      { segmentY := 295, circleX := 300, circleY := 300,
        velocityX := 10 * m.cos (25 * m.M_PI / 180),
        velocityY := 10 * m.sin (25 * m.M_PI / 180),
        vectorMode := true } ∧
    initialState.segmentY - 5 = 295 ∧
    initialState.circleX = 300 ∧ initialState.circleY = 300 ∧
    VECTOR_LENGTH = 10 ∧ ANGLE m = 25 * m.M_PI / 180 := by
  refine ⟨?_, ?_, ?_, ?_, rfl, rfl⟩
  · have hp : GLFW_PRESS = GLFW_PRESS ∨ GLFW_PRESS = GLFW_REPEAT := Or.inl rfl
    simp only [run, List.foldl_cons, List.foldl_nil, step]
    rw [keyCallback_S m _ GLFW_PRESS hp, keyCallback_DOWN m _ GLFW_PRESS hp]
    norm_num [keyDownBody, keySBody, initialState, WINDOW_SIZE, SEGMENT_THICKNESS,
      VECTOR_LENGTH, ANGLE]
  · norm_num [initialState, WINDOW_SIZE]
  · norm_num [initialState, WINDOW_SIZE]
  · norm_num [initialState, WINDOW_SIZE]

/-! ### Circle fragment colour -/

/-- C9: the colour of the circle fragment shader.  For every pixel, every
distance function (so for the Euclidean one) and every positive radius, with
`dist` the distance from the pixel to `circleCenter`: the output is
`borderColor` when `dist = radius`, `centerColor` when `dist = 0`, the
interpolation `centerColor * (1 - t) + borderColor * t` with `t = dist / radius`
when `dist ≤ radius`, and yellow `(1, 1, 0)` when `dist > radius`, always with
alpha 1; the colours the program draws with are red `(1, 0, 0)` for the centre
and green `(0, 1, 0)` for the border. -/
theorem circle_fragment_colour (distance : Vec2 → Vec2 → ℚ) (u : CircleUniforms)
    (fragCoord : Vec2) (hr : 0 < u.radius) :
    (distance fragCoord u.circleCenter = u.radius →
      circleFragmentShader distance u fragCoord = vec4 u.borderColor 1) ∧
    (distance fragCoord u.circleCenter = 0 →
      circleFragmentShader distance u fragCoord = vec4 u.centerColor 1) ∧
    (distance fragCoord u.circleCenter ≤ u.radius →
      circleFragmentShader distance u fragCoord =
        ⟨u.centerColor.x * (1 - distance fragCoord u.circleCenter / u.radius) +
           u.borderColor.x * (distance fragCoord u.circleCenter / u.radius),
         u.centerColor.y * (1 - distance fragCoord u.circleCenter / u.radius) +
           u.borderColor.y * (distance fragCoord u.circleCenter / u.radius),
         u.centerColor.z * (1 - distance fragCoord u.circleCenter / u.radius) +
           u.borderColor.z * (distance fragCoord u.circleCenter / u.radius),
         1⟩) ∧
    (u.radius < distance fragCoord u.circleCenter →
      circleFragmentShader distance u fragCoord = ⟨1, 1, 0, 1⟩) ∧
    (∀ s : State, (circleUniforms s).centerColor = ⟨1, 0, 0⟩ ∧
      (circleUniforms s).borderColor = ⟨0, 1, 0⟩) := by
  have hne : u.radius ≠ 0 := ne_of_gt hr
  refine ⟨fun h => ?_, fun h => ?_, fun h => ?_, fun h => ?_, fun s => ⟨rfl, rfl⟩⟩
  · simp only [circleFragmentShader, h, le_refl, if_true, div_self hne, mix, vec4]
    norm_num
  · simp only [circleFragmentShader, h, le_of_lt hr, if_true, zero_div, mix, vec4]
    norm_num
  · simp only [circleFragmentShader, if_pos h, mix, vec4]
  · simp only [circleFragmentShader, if_neg (not_le_of_lt h)]

/-- The pixel centre (303.5, 304.5) is at Euclidean distance 5 from
(300.5, 300.5). -/
theorem euclideanDistance_3_4_5 :
    euclideanDistance ⟨607 / 2, 609 / 2⟩ ⟨601 / 2, 601 / 2⟩ = 5 := by
  have h : ((607 / 2 : ℚ) - 601 / 2) ^ 2 + ((609 / 2 : ℚ) - 601 / 2) ^ 2 = 5 * 5 := by
    norm_num
  unfold euclideanDistance
  simp only [h, Rat.sqrt_eq]
  norm_num

/-- Witness of C9: centre (300.5, 300.5), radius 5 and the pixel at
(303.5, 304.5), at Euclidean distance exactly 5: the border colour. -/
theorem circle_fragment_colour_witness :
    (0 : ℚ) < 5 ∧
    euclideanDistance ⟨607 / 2, 609 / 2⟩ ⟨601 / 2, 601 / 2⟩ = 5 ∧
    circleFragmentShader euclideanDistance
        { circleCenter := ⟨601 / 2, 601 / 2⟩, radius := 5 } ⟨607 / 2, 609 / 2⟩ =
      ⟨0, 1, 0, 1⟩ :=
  ⟨by norm_num, euclideanDistance_3_4_5,
    (circle_fragment_colour euclideanDistance
      { circleCenter := ⟨601 / 2, 601 / 2⟩, radius := 5 } ⟨607 / 2, 609 / 2⟩
      (by norm_num)).1 euclideanDistance_3_4_5⟩

/-! ### Setup failures -/

theorem mainLoop_frames (m : CMath) (polls : List (List (Int × Int))) :
    ∀ (s : State) (n : Nat), (mainLoop m s n polls).2 = n + polls.length := by
  induction polls with
  | nil => intro s n; rfl
  | cons evs rest ih =>
    intro s n
    simp only [mainLoop, ih, List.length_cons]
    omega

/-- C10, as stated, fails: when the vertex shader does not compile and every
other setup step succeeds, `main` only logs the failure, enters the frame loop
(here it runs one frame) and returns 0. -/
theorem shader_failure_is_not_fatal :
    shaderFailureOutcome.anyFailure = true ∧
    (main approxCMath shaderFailureOutcome [[]]).exitCode = 0 ∧
    (main approxCMath shaderFailureOutcome [[]]).loopReached = true ∧
    (main approxCMath shaderFailureOutcome [[]]).framesRun = 1 ∧
    (main approxCMath shaderFailureOutcome [[]]).log =
      ["Shader compilation failed: syntax error"] := by
  refine ⟨by decide, rfl, rfl, ?_, ?_⟩
  · simp [main, shaderFailureOutcome, mainLoop]
  · simp [main, shaderFailureOutcome, checkShaderCompile, checkProgramLink]

/-- C10, amended: if GLFW init, window creation or GLEW init fails, `main`
returns the non-zero code -1 and never reaches the frame loop.  Otherwise,
whatever the shader compile and program link statuses are, `main` reaches the
frame loop, runs one frame per iteration until the window closes and returns
0, its log holding one line for each failed compile or link.  So `main`
returns 0 only after the frame loop has ended by a close. -/
theorem setup_failure_exit_codes (m : CMath) (env : SetupOutcome)
    (polls : List (List (Int × Int))) :
    (env.platformFailure = true →
      (main m env polls).exitCode = -1 ∧ (main m env polls).exitCode ≠ 0 ∧
      (main m env polls).loopReached = false ∧ (main m env polls).framesRun = 0) ∧
    (env.platformFailure = false →
      (main m env polls).exitCode = 0 ∧ (main m env polls).loopReached = true ∧
      (main m env polls).framesRun = polls.length ∧
      (main m env polls).log =
        checkShaderCompile env.vertexShader ++
        checkShaderCompile env.circleFragmentShader ++
        checkShaderCompile env.segmentFragmentShader ++
        checkProgramLink env.circleProgram ++
        checkProgramLink env.segmentProgram) ∧
    ((main m env polls).exitCode = 0 →
      (main m env polls).loopReached = true ∧
      (main m env polls).framesRun = polls.length) := by
  have hf := mainLoop_frames m polls initialState 0
  rcases env with ⟨g, w, e, v, cf, sf, cp, sp⟩
  simp only [SetupOutcome.platformFailure, main]
  cases g <;> cases w <;> cases e <;> simp [hf]

/-- Witness of the amended C10: a failed window creation gives exit code -1
and no frame; a failed shader compile with a working platform gives exit code
0 after the loop. -/
theorem setup_failure_exit_codes_witness :
    windowFailureOutcome.platformFailure = true ∧
    (main approxCMath windowFailureOutcome [[]]).exitCode = -1 ∧
    (main approxCMath windowFailureOutcome [[]]).loopReached = false ∧
    shaderFailureOutcome.platformFailure = false ∧
    (main approxCMath shaderFailureOutcome [[]]).exitCode = 0 ∧
    (main approxCMath shaderFailureOutcome [[]]).loopReached = true :=
  have h1 : windowFailureOutcome.platformFailure = true := by decide
  have h2 : shaderFailureOutcome.platformFailure = false := by decide
  ⟨h1,
    ((setup_failure_exit_codes approxCMath windowFailureOutcome [[]]).1 h1).1,
    ((setup_failure_exit_codes approxCMath windowFailureOutcome [[]]).1 h1).2.2.1,
    h2,
    ((setup_failure_exit_codes approxCMath shaderFailureOutcome [[]]).2.1 h2).1,
    ((setup_failure_exit_codes approxCMath shaderFailureOutcome [[]]).2.1 h2).2.1⟩

end BouncingCircle
